import Mathlib

/-!
Verification of the chain state synchronizer of the `mud` repository.

The repository snapshot contains the synchronizer's unit tests
(`packages/network/src/workers/SyncWorker.spec.ts`) and the client-side
mapping layer (`packages/ri/client/src/layers/Network/setup/setupMappings.ts`).
The synchronizer implementation itself (SyncWorker, CacheStore, syncUtils)
is not part of the snapshot, so it is modelled here from the specification,
with every behaviour that the unit tests pin down taken from the tests
(in particular the block-number rewrite of initial-phase events, which the
tests fix to the merged store's block number rather than to the latest
block tick minus one).
-/

namespace Mud

/-- The atomic unit flowing through the synchronizer (spec §3): a component
update for an (component, entity) pair, carrying an opaque value, the
originating transaction hash, the last-event-in-transaction flag and a block
number. Values are kept abstract in the type parameter `V`. -/
structure ComponentUpdate (V : Type) where
  component : String
  entity : String
  value : V
  txHash : String
  lastEventInTx : Bool
  blockNumber : Int
deriving Repr, DecidableEq

/-- Key of the compacted state: the (component, entity) pair. -/
abbrev EcsKey : Type := String × String

/-- The (component, entity) key of an update. -/
def ComponentUpdate.key {V : Type} (u : ComponentUpdate V) : EcsKey :=
  (u.component, u.entity)

/-- Insertion-ordered association list update, mirroring a JS `Map.set`:
an existing key keeps its position and gets the new value, a fresh key is
appended at the end. -/
def setAssoc {V : Type} : List (EcsKey × V) → EcsKey → V → List (EcsKey × V)
  | [], k, v => [(k, v)]
  | (k', v') :: rest, k, v =>
      if k' = k then (k, v) :: rest else (k', v') :: setAssoc rest k v

/-- Modelled from the spec: CacheStore (spec §3, §4.1; `CacheStore.ts` is not
in the snapshot). An ordered sequence of observed updates plus the compacted
(component, entity) → value state in insertion order, plus a store-level
block number. The store-level block number (one less than the block number
of the last stored event) is pinned by `SyncWorker.spec.ts`, whose expected
outputs carry it (e.g. 9999 for the snapshot seeded at block 10000). -/
structure CacheStore (V : Type) where
  events : List (ComponentUpdate V)
  state : List (EcsKey × V)
  blockNumber : Int
deriving Repr, DecidableEq

/-- Modelled from the spec: a freshly created, empty CacheStore (§4.1). -/
def createCacheStore {V : Type} : CacheStore V :=
  { events := [], state := [], blockNumber := 0 }

/-- Modelled from the spec: `storeEvent` (§4.1) appends the update to the
sequence and overwrites the compacted entry for its (component, entity) key.
The store block number becomes the update's block number minus one, as
pinned by the expected outputs of `SyncWorker.spec.ts`. -/
def storeEvent {V : Type} (s : CacheStore V) (u : ComponentUpdate V) : CacheStore V :=
  { events := s.events ++ [u]
    state := setAssoc s.state u.key u.value
    blockNumber := u.blockNumber - 1 }

/-- Iterated `storeEvent` over a list of updates, in order. -/
def storeEvents {V : Type} (s : CacheStore V) (us : List (ComponentUpdate V)) : CacheStore V :=
  us.foldl storeEvent s

/-- Modelled from the spec: `mergeFrom` (§4.1) applies `storeEvent` for each
update of the other store's sequence, in order. -/
def mergeFrom {V : Type} (s other : CacheStore V) : CacheStore V :=
  storeEvents s other.events

/-- The synthetic ComponentUpdate produced for one compacted entry when the
store is drained: `txHash = "cache"`, `lastEventInTx = false`, and the given
block number. -/
def entryUpdate {V : Type} (bn : Int) (kv : EcsKey × V) : ComponentUpdate V :=
  { component := kv.1.1, entity := kv.1.2, value := kv.2
    txHash := "cache", lastEventInTx := false, blockNumber := bn }

/-- An update as it is re-emitted during the initial phase: component, entity
and value kept, `txHash = "cache"`, `lastEventInTx = false`, block number
replaced by the given one. -/
def rewriteInitial {V : Type} (bn : Int) (u : ComponentUpdate V) : ComponentUpdate V :=
  { component := u.component, entity := u.entity, value := u.value
    txHash := "cache", lastEventInTx := false, blockNumber := bn }

/-- Modelled from the spec: `state()` (§4.1), the compacted entries of a
store as synthetic ComponentUpdates. Every entry carries the store-level
block number, as pinned by `SyncWorker.spec.ts` (the cache seeded by an
event at block 100 is drained with block number 99, not 100). -/
def getCacheStoreEntries {V : Type} (s : CacheStore V) : List (ComponentUpdate V) :=
  s.state.map (entryUpdate s.blockNumber)

/-- Modelled from the spec: the immutable input of one synchronization
session (spec §3 SyncConfig); only the fields the core consults are kept. -/
structure SyncConfig where
  snapshotServiceUrl : String
  chainId : Int
  worldAddress : String
  initialBlockNumber : Int
deriving Repr, DecidableEq

/-- Which source the InitialStateResolver seeded from. -/
inductive SeedSource : Type where
  | snapshot : SeedSource
  | cache : SeedSource
  | empty : SeedSource
deriving Repr, DecidableEq

/-- Modelled from the spec: the snapshot service as seen by the resolver
(§4.3). An empty URL collapses to "snapshot unavailable" regardless of the
service's state. -/
def effectiveSnapshot {V : Type} (cfg : SyncConfig)
    (svc : Option (Int × CacheStore V)) : Option (Int × CacheStore V) :=
  if cfg.snapshotServiceUrl = "" then none else svc

/-- The 100-block bias of the resolver (spec §4.4). -/
def SNAPSHOT_PREFER_THRESHOLD : Int := 100

/-- Modelled from the spec: the InitialStateResolver decision algorithm
(§4.4, `SyncWorker.ts` is not in the snapshot). Returns the chosen source,
the seed store and the block number it is current to:
1. `candidateCache = max(cacheBlockNumber, initialBlockNumber)`;
2. the snapshot wins iff it is available and its block number exceeds
   `candidateCache + SNAPSHOT_PREFER_THRESHOLD`;
3. otherwise the persistent cache is used when it has any data, else the
   empty store at the floor. -/
def resolveInitialState {V : Type} (cfg : SyncConfig) (cacheBlockNumber : Int)
    (cacheStore : CacheStore V) (svc : Option (Int × CacheStore V)) :
    SeedSource × CacheStore V × Int :=
  let candidateCache := max cacheBlockNumber cfg.initialBlockNumber
  let fallback : SeedSource × CacheStore V × Int :=
    if cacheStore.state.isEmpty then
      (SeedSource.empty, createCacheStore, cfg.initialBlockNumber)
    else
      (SeedSource.cache, cacheStore, candidateCache)
  match effectiveSnapshot cfg svc with
  | some (snapshotBlockNumber, snapshotStore) =>
      if candidateCache + SNAPSHOT_PREFER_THRESHOLD < snapshotBlockNumber then
        (SeedSource.snapshot, snapshotStore, snapshotBlockNumber)
      else fallback
  | none => fallback

/-- Modelled from the spec: the GapFiller (§4.5). Returns the fetched store
together with the list of (from, to) invocations of the BlockRangeFetcher;
an empty interval performs no fetch. -/
def gapFill {V : Type} (fetchRange : Int → Int → CacheStore V)
    (fromBlock toBlock : Int) : CacheStore V × List (Int × Int) :=
  if toBlock ≤ fromBlock then (createCacheStore, [])
  else (fetchRange fromBlock toBlock, [(fromBlock, toBlock)])

/-- Modelled from the spec: everything one synchronizer run consumes
(§4.7, §6): the config, the persistent cache's block number and store, the
snapshot service response (if reachable), the BlockRangeFetcher, the first
block-number tick (`targetBlock`, captured at BOOT) and any later ticks, the
live events buffered while the initial sync is in progress, and the live
events arriving after the LIVE transition. -/
structure SyncInputs (V : Type) where
  config : SyncConfig
  cacheBlockNumber : Int
  cacheStore : CacheStore V
  snapshotService : Option (Int × CacheStore V)
  fetchRange : Int → Int → CacheStore V
  targetBlock : Int
  laterTicks : List Int
  bufferedLive : List (ComponentUpdate V)
  liveAfter : List (ComponentUpdate V)

/-- Observable outcome of one synchronizer run. -/
structure SyncResult (V : Type) where
  seedSource : SeedSource
  seedBlock : Int
  gapFetchCalls : List (Int × Int)
  mergedStore : CacheStore V
  initialOutput : List (ComponentUpdate V)
  liveOutput : List (ComponentUpdate V)

/-- The resolver applied to a run's inputs. -/
def seedOf {V : Type} (inp : SyncInputs V) : SeedSource × CacheStore V × Int :=
  resolveInitialState inp.config inp.cacheBlockNumber inp.cacheStore inp.snapshotService

/-- The gap fill of a run: from the seed block to the first tick. -/
def gapOf {V : Type} (inp : SyncInputs V) : CacheStore V × List (Int × Int) :=
  gapFill inp.fetchRange (seedOf inp).2.2 inp.targetBlock

/-- The merged store of a run: the seed store, merged with the gap store's
sequence, with the buffered live events stored on top. -/
def mergedOf {V : Type} (inp : SyncInputs V) : CacheStore V :=
  storeEvents (mergeFrom (seedOf inp).2.1 (gapOf inp).1) inp.bufferedLive

/-- Modelled from the spec: the SyncOrchestrator (§4.7, `SyncWorker.ts` is
not in the snapshot), as pinned by `SyncWorker.spec.ts`: resolve the seed,
fetch the gap from the seed block to the first tick, merge seed, gap and the
buffered live events into one store, emit that store's compacted entries
(each with the store's block number, `txHash = "cache"`,
`lastEventInTx = false`), then forward live events unmodified. The tests
force this shape: expected initial outputs carry the merged store's block
number (9999, 99, 998, 1001 in the four scenarios) rather than the latest
tick minus one, and the interleaved scenario produces exactly five outputs,
so the buffered events are drained as entries of the merged store. -/
def syncRun {V : Type} (inp : SyncInputs V) : SyncResult V :=
  { seedSource := (seedOf inp).1
    seedBlock := (seedOf inp).2.2
    gapFetchCalls := (gapOf inp).2
    mergedStore := mergedOf inp
    initialOutput := getCacheStoreEntries (mergedOf inp)
    liveOutput := inp.liveAfter }

/-- The single output stream of a run: initial-phase events first, then the
live events. -/
def SyncResult.output {V : Type} (r : SyncResult V) : List (ComponentUpdate V) :=
  r.initialOutput ++ r.liveOutput

/-- The compacted state obtained by folding `setAssoc` over a list of
updates, starting from a given state. -/
def applyUpdates {V : Type} (st : List (EcsKey × V)) (us : List (ComponentUpdate V)) :
    List (EcsKey × V) :=
  us.foldl (fun acc u => setAssoc acc u.key u.value) st

/-- The (component, entity) keys of all events feeding the initial phase of
a run: the seed store's compacted keys, then the gap store's sequence keys,
then the buffered live events' keys. -/
def initialKeys {V : Type} (inp : SyncInputs V) : List EcsKey :=
  (seedOf inp).2.1.state.map Prod.fst
    ++ (gapOf inp).1.events.map ComponentUpdate.key
    ++ inp.bufferedLive.map ComponentUpdate.key

/-! ### The client-side mapping layer (`setupMappings.ts`, present in src) -/

/-- The client world as `setupMappings` observes it: the set of registered
entities (in registration order) and the component values written through
`setComponent`. -/
structure WorldState (V : Type) where
  entities : List String
  componentValues : List (EcsKey × V)
deriving Repr, DecidableEq

/-- Model of `world.registerEntity`: adds an entity to the world. -/
def registerEntity {V : Type} (w : WorldState V) (e : String) : WorldState V :=
  { w with entities := w.entities ++ [e] }

/-- Model of `setComponent(components[update.component], networkEntity,
update.value)`: writes a component value for an entity. -/
def setComponent {V : Type} (w : WorldState V) (c e : String) (v : V) : WorldState V :=
  { w with componentValues := setAssoc w.componentValues (c, e) v }

/-- The subscriber body of `setupMappings` (setupMappings.ts lines 40-47):
map the update's entity through `contractToNetworkEntity` (abstracted as
`toNet`), register it if the world does not have it yet, apply
`setComponent`, and emit the update's `txHash` on `txReduced$` exactly when
`lastEventInTx` is set. Returns the new world state and the optional
`txReduced$` emission. -/
def handleEcsEvent {V : Type} (toNet : String → String) (w : WorldState V)
    (u : ComponentUpdate V) : WorldState V × Option String :=
  let e := toNet u.entity
  let w1 := if w.entities.contains e then w else registerEntity w e
  let w2 := setComponent w1 u.component e u.value
  (w2, if u.lastEventInTx then some u.txHash else none)

/-! ### Concrete scenarios from `SyncWorker.spec.ts`
Component values are opaque; the tests use `{}` for every value, modelled
as `0 : Nat` (and distinct numbers where a counterexample needs distinct
values). -/

/-- The cached event of the test fixture: block 100, so the loaded cache
store reports block number 99. -/
def cacheEvent : ComponentUpdate Nat :=
  { component := "0x10", entity := "0x11", value := 0
    txHash := "0x12", lastEventInTx := true, blockNumber := 100 }

/-- The cache store the mocked `loadIndexDbCacheStore` returns. -/
def testCacheStore : CacheStore Nat := storeEvent createCacheStore cacheEvent

/-- The snapshot event of the test fixture: block 10000, so the fetched
snapshot store reports block number 9999. -/
def snapshotEvent : ComponentUpdate Nat :=
  { component := "0x42", entity := "0x11", value := 0
    txHash := "0x12", lastEventInTx := true, blockNumber := 10000 }

/-- The store the mocked `fetchSnapshot` returns. -/
def testSnapshotStore : CacheStore Nat := storeEvent createCacheStore snapshotEvent

/-- The gap event of the test fixture, at block 999. -/
def gapEvent : ComponentUpdate Nat :=
  { component := "0x20", entity := "0x21", value := 0
    txHash := "0x22", lastEventInTx := true, blockNumber := 999 }

/-- The mocked `fetchStateInBlockRange`: one event at block 999 when the
upper bound exceeds 1000, nothing otherwise. -/
def mockFetchRange : Int → Int → CacheStore Nat := fun _ toBlock =>
  if 1000 < toBlock then storeEvent createCacheStore gapEvent else createCacheStore

/-- The test configuration with the snapshot service URL set. -/
def snapshotConfig : SyncConfig :=
  { snapshotServiceUrl := "http://localhost:50052", chainId := 4242
    worldAddress := "0x0", initialBlockNumber := 0 }

/-- The test configuration with an empty snapshot service URL. -/
def noSnapshotConfig : SyncConfig :=
  { snapshotServiceUrl := "", chainId := 4242
    worldAddress := "0x0", initialBlockNumber := 0 }

/-- Scenario of the snapshot test: cache block 99, snapshot block 9999,
floor 0, single tick 101, no live traffic. -/
def snapshotScenario : SyncInputs Nat :=
  { config := snapshotConfig
    cacheBlockNumber := 99
    cacheStore := testCacheStore
    snapshotService := some (9999, testSnapshotStore)
    fetchRange := mockFetchRange
    targetBlock := 101
    laterTicks := []
    bufferedLive := []
    liveAfter := [] }

/-- Scenario of the gap test: cache block 99, no snapshot, floor 0, single
tick 1001, no live traffic. -/
def gapScenario : SyncInputs Nat :=
  { config := noSnapshotConfig
    cacheBlockNumber := 99
    cacheStore := testCacheStore
    snapshotService := none
    fetchRange := mockFetchRange
    targetBlock := 1001
    laterTicks := []
    bufferedLive := []
    liveAfter := [] }

/-- First live event of the interleaved test, arriving during initial sync. -/
def liveEvent1 : ComponentUpdate Nat :=
  { component := "0x99", entity := "0x1", value := 0
    txHash := "0x2", lastEventInTx := true, blockNumber := 1001 }

/-- Second live event of the interleaved test, arriving during initial sync. -/
def liveEvent2 : ComponentUpdate Nat :=
  { component := "0x999", entity := "0x1", value := 0
    txHash := "0x2", lastEventInTx := true, blockNumber := 1002 }

/-- Third live event of the interleaved test, arriving after the LIVE
transition. -/
def liveEvent3 : ComponentUpdate Nat :=
  { component := "0x9999", entity := "0x1", value := 0
    txHash := "0x2", lastEventInTx := true, blockNumber := 1003 }

/-- Scenario of the interleaved test: cache block 99, no snapshot, floor 0,
ticks 1001 then 1002, two live events buffered during initial sync, one live
event after it. -/
def interleavedScenario : SyncInputs Nat :=
  { config := noSnapshotConfig
    cacheBlockNumber := 99
    cacheStore := testCacheStore
    snapshotService := none
    fetchRange := mockFetchRange
    targetBlock := 1001
    laterTicks := [1002]
    bufferedLive := [liveEvent1, liveEvent2]
    liveAfter := [liveEvent3] }

/-- The live event of the pass-through test. -/
def passThroughEvent : ComponentUpdate Nat :=
  { component := "0x0", entity := "0x1", value := 0
    txHash := "0x2", lastEventInTx := true, blockNumber := 111 }

/-- Scenario of the live pass-through test (spec §8 scenario 1): no snapshot
service, empty persistent cache, floor 0, tick 101, one live event after the
LIVE transition. -/
def passThroughScenario : SyncInputs Nat :=
  { config := noSnapshotConfig
    cacheBlockNumber := -1
    cacheStore := createCacheStore
    snapshotService := none
    fetchRange := mockFetchRange
    targetBlock := 101
    laterTicks := []
    bufferedLive := []
    liveAfter := [passThroughEvent] }

/-- Two buffered live events sharing the (component, entity) key, with
distinct values: the first one. -/
def dupKeyEvent1 : ComponentUpdate Nat :=
  { component := "0xc", entity := "0xe", value := 1
    txHash := "0xa", lastEventInTx := true, blockNumber := 101 }

/-- Two buffered live events sharing the (component, entity) key, with
distinct values: the second one. -/
def dupKeyEvent2 : ComponentUpdate Nat :=
  { component := "0xc", entity := "0xe", value := 2
    txHash := "0xb", lastEventInTx := true, blockNumber := 101 }

/-- Scenario with an empty seed and two buffered live events for the same
(component, entity) key, arriving during the initial sync. -/
def dupKeyScenario : SyncInputs Nat :=
  { config := noSnapshotConfig
    cacheBlockNumber := -1
    cacheStore := createCacheStore
    snapshotService := none
    fetchRange := fun _ _ => createCacheStore
    targetBlock := 101
    laterTicks := []
    bufferedLive := [dupKeyEvent1, dupKeyEvent2]
    liveAfter := [] }

/-! ### Helper lemmas -/

/-- Every synthetic update produced by draining a store carries the store's
block number, `txHash = "cache"` and `lastEventInTx = false`. -/
theorem mem_getCacheStoreEntries {V : Type} {s : CacheStore V} {e : ComponentUpdate V}
    (h : e ∈ getCacheStoreEntries s) :
    e.txHash = "cache" ∧ e.lastEventInTx = false ∧ e.blockNumber = s.blockNumber := by
  rcases List.mem_map.mp h with ⟨kv, _, rfl⟩
  exact ⟨rfl, rfl, rfl⟩

/-- Every initial-phase event of a run carries `txHash = "cache"`,
`lastEventInTx = false` and the merged store's block number. -/
theorem mem_initialOutput {V : Type} {inp : SyncInputs V} {e : ComponentUpdate V}
    (h : e ∈ (syncRun inp).initialOutput) :
    e.txHash = "cache" ∧ e.lastEventInTx = false ∧
      e.blockNumber = (syncRun inp).mergedStore.blockNumber :=
  mem_getCacheStoreEntries h

/-- Updating a fresh key appends the binding at the end of the state. -/
theorem setAssoc_fresh {V : Type} (st : List (EcsKey × V)) (k : EcsKey) (v : V)
    (h : k ∉ st.map Prod.fst) : setAssoc st k v = st ++ [(k, v)] := by
  induction st with
  | nil => rfl
  | cons p rest ih =>
      obtain ⟨k', v'⟩ := p
      simp only [List.map_cons, List.mem_cons, not_or] at h
      simp only [setAssoc, if_neg (fun hk : k' = k => h.1 hk.symm), List.cons_append,
        List.cons.injEq, true_and]
      exact ih h.2

/-- The compacted state after storing a list of updates is the fold of
`setAssoc` over them. -/
theorem storeEvents_state {V : Type} (us : List (ComponentUpdate V)) (s : CacheStore V) :
    (storeEvents s us).state = applyUpdates s.state us := by
  induction us generalizing s with
  | nil => rfl
  | cons u us ih => exact ih (storeEvent s u)

/-- Folding over an appended list of updates is the composition of the two
folds. -/
theorem applyUpdates_append {V : Type} (st : List (EcsKey × V))
    (xs ys : List (ComponentUpdate V)) :
    applyUpdates st (xs ++ ys) = applyUpdates (applyUpdates st xs) ys := by
  simp [applyUpdates]

/-- When all keys are fresh and pairwise distinct, storing a list of updates
appends one binding per update, in order. -/
theorem applyUpdates_fresh {V : Type} (us : List (ComponentUpdate V)) (st : List (EcsKey × V))
    (h : (st.map Prod.fst ++ us.map ComponentUpdate.key).Nodup) :
    applyUpdates st us = st ++ us.map (fun u => (u.key, u.value)) := by
  induction us generalizing st with
  | nil => simp [applyUpdates]
  | cons u us ih =>
      have hdisj := (List.nodup_append.mp h).2.2
      have hknotin : u.key ∉ st.map Prod.fst := fun hmem => hdisj hmem (by simp)
      have h1 : applyUpdates st (u :: us) = applyUpdates (st ++ [(u.key, u.value)]) us := by
        show applyUpdates (setAssoc st u.key u.value) us = _
        rw [setAssoc_fresh st u.key u.value hknotin]
      rw [h1, ih (st ++ [(u.key, u.value)]) ?_]
      · simp
      · simpa using h

/-- Draining a binding built from an update's key and value reproduces the
update's rewritten form. -/
theorem entryUpdate_key_value {V : Type} (bn : Int) (u : ComponentUpdate V) :
    entryUpdate bn (u.key, u.value) = rewriteInitial bn u := rfl

/-! ### Claims -/

/-- C1, counterexample: in the snapshot scenario (cache block 99, snapshot
block 9999, floor 0, single tick 101) the one synthesized seed event is
emitted with blockNumber 9999, not `currentTargetBlock - 1 = 100` as the
claim states. -/
theorem c1_rewrite_counterexample :
    (syncRun snapshotScenario).output =
      [{ component := "0x42", entity := "0x11", value := 0, txHash := "cache",
         lastEventInTx := false, blockNumber := 9999 }] ∧
    snapshotScenario.targetBlock = 101 ∧ snapshotScenario.laterTicks = [] ∧
    (9999 : Int) ≠ 101 - 1 := by
  exact ⟨by decide, rfl, rfl, by decide⟩

/-- C1, amended: every ComponentUpdate emitted while the orchestrator is in
the initial-sync phase carries the merged store's block number (one less
than the block number of the last event stored into the merged
seed/gap/buffer store), independent of the block-number ticks; in the
snapshot scenario this is 9999, not 100. -/
theorem c1_initial_blockNumber {V : Type} (inp : SyncInputs V) (e : ComponentUpdate V)
    (h : e ∈ (syncRun inp).initialOutput) :
    e.blockNumber = (syncRun inp).mergedStore.blockNumber :=
  (mem_initialOutput h).2.2

/-- C1, witness: the synthesized snapshot seed event is in the initial
output of the snapshot scenario and carries the merged store's block
number. -/
theorem c1_initial_blockNumber_witness :
    ({ component := "0x42", entity := "0x11", value := 0, txHash := "cache",
       lastEventInTx := false, blockNumber := 9999 } : ComponentUpdate Nat)
        ∈ (syncRun snapshotScenario).initialOutput ∧
    ({ component := "0x42", entity := "0x11", value := 0, txHash := "cache",
       lastEventInTx := false, blockNumber := 9999 } : ComponentUpdate Nat).blockNumber
        = (syncRun snapshotScenario).mergedStore.blockNumber :=
  ⟨by decide, c1_initial_blockNumber snapshotScenario _ (by decide)⟩

/-- C5, counterexample: in the snapshot scenario the only tick ever observed
is 101, yet the seed event is emitted with blockNumber 9999 > 100, so
initial-phase events can carry a block number far beyond
`currentTargetBlock - 1`. -/
theorem c5_bound_counterexample :
    ((syncRun snapshotScenario).initialOutput.map (fun u => u.blockNumber)) = [(9999 : Int)] ∧
    snapshotScenario.targetBlock = 101 ∧ snapshotScenario.laterTicks = [] ∧
    ¬ ((9999 : Int) ≤ 101 - 1) := by
  exact ⟨by decide, rfl, rfl, by decide⟩

/-- C5, amended: no event emitted during the initial-sync phase carries a
block number greater than the merged store's block number (one less than
the block number of the last event stored into the merged seed/gap/buffer
store); that bound, not `currentTargetBlock - 1`, is what a buffered live
event's emitted block number is capped to. -/
theorem c5_initial_blockNumber_bound {V : Type} (inp : SyncInputs V) (e : ComponentUpdate V)
    (h : e ∈ (syncRun inp).initialOutput) :
    e.blockNumber ≤ (syncRun inp).mergedStore.blockNumber :=
  le_of_eq (mem_initialOutput h).2.2

/-- C5, witness: the rewritten buffered live event of the interleaved
scenario is in the initial output and respects the merged store's bound. -/
theorem c5_initial_blockNumber_bound_witness :
    ({ component := "0x999", entity := "0x1", value := 0, txHash := "cache",
       lastEventInTx := false, blockNumber := 1001 } : ComponentUpdate Nat)
        ∈ (syncRun interleavedScenario).initialOutput ∧
    ({ component := "0x999", entity := "0x1", value := 0, txHash := "cache",
       lastEventInTx := false, blockNumber := 1001 } : ComponentUpdate Nat).blockNumber
        ≤ (syncRun interleavedScenario).mergedStore.blockNumber :=
  ⟨by decide, c5_initial_blockNumber_bound interleavedScenario _ (by decide)⟩

/-- C7: every ComponentUpdate emitted during the initial-sync phase — seed,
gap and drained buffered live events alike — has `txHash = "cache"` and
`lastEventInTx = false`, regardless of the source event's values. -/
theorem c7_initial_marking {V : Type} (inp : SyncInputs V) (e : ComponentUpdate V)
    (h : e ∈ (syncRun inp).initialOutput) :
    e.txHash = "cache" ∧ e.lastEventInTx = false :=
  ⟨(mem_initialOutput h).1, (mem_initialOutput h).2.1⟩

/-- C7, witness: the drained form of the second buffered live event of the
interleaved scenario (whose source had `txHash = "0x2"` and
`lastEventInTx = true`) is emitted with `txHash = "cache"` and
`lastEventInTx = false`. -/
theorem c7_initial_marking_witness :
    ({ component := "0x999", entity := "0x1", value := 0, txHash := "cache",
       lastEventInTx := false, blockNumber := 1001 } : ComponentUpdate Nat)
        ∈ (syncRun interleavedScenario).initialOutput ∧
    liveEvent2.txHash = "0x2" ∧ liveEvent2.lastEventInTx = true ∧
    ({ component := "0x999", entity := "0x1", value := 0, txHash := "cache",
       lastEventInTx := false, blockNumber := 1001 } : ComponentUpdate Nat).txHash = "cache" ∧
    ({ component := "0x999", entity := "0x1", value := 0, txHash := "cache",
       lastEventInTx := false, blockNumber := 1001 } : ComponentUpdate Nat).lastEventInTx
        = false :=
  ⟨by decide, rfl, rfl,
    (c7_initial_marking interleavedScenario _ (by decide)).1,
    (c7_initial_marking interleavedScenario _ (by decide)).2⟩

/-- C2: the InitialStateResolver seeds from the snapshot iff the snapshot is
effectively available (non-empty URL and a service response) and its block
number exceeds `max(cacheBlockNumber, floor) + 100`; with an empty URL it
falls back to the persistent cache whenever the cache has data. -/
theorem c2_resolver_correctness {V : Type} (cfg : SyncConfig) (cacheBN : Int)
    (cs : CacheStore V) (svc : Option (Int × CacheStore V)) :
    ((resolveInitialState cfg cacheBN cs svc).1 = SeedSource.snapshot ↔
      ∃ bn store, effectiveSnapshot cfg svc = some (bn, store) ∧
        max cacheBN cfg.initialBlockNumber + SNAPSHOT_PREFER_THRESHOLD < bn) ∧
    (cfg.snapshotServiceUrl = "" → cs.state.isEmpty = false →
      (resolveInitialState cfg cacheBN cs svc).1 = SeedSource.cache) := by
  constructor
  · unfold resolveInitialState
    cases hsnap : effectiveSnapshot cfg svc with
    | none =>
        simp only [hsnap]
        constructor
        · intro h
          by_cases hc : cs.state.isEmpty <;> simp [hc] at h
        · rintro ⟨bn, store, h, -⟩
          cases h
    | some p =>
        obtain ⟨bn, store⟩ := p
        simp only [hsnap]
        by_cases hlt : max cacheBN cfg.initialBlockNumber + SNAPSHOT_PREFER_THRESHOLD < bn
        · simp [hlt]
        · by_cases hc : cs.state.isEmpty <;> simp [hc, hlt]
  · intro hurl hcs
    unfold resolveInitialState effectiveSnapshot
    simp [hurl, hcs]

/-- C2, witness: with an empty snapshot service URL and a non-empty cache,
the resolver seeds from the cache. -/
theorem c2_resolver_correctness_witness :
    noSnapshotConfig.snapshotServiceUrl = "" ∧ testCacheStore.state.isEmpty = false ∧
    (resolveInitialState noSnapshotConfig 99 testCacheStore
      (none : Option (Int × CacheStore Nat))).1 = SeedSource.cache :=
  ⟨rfl, by decide,
    (c2_resolver_correctness noSnapshotConfig 99 testCacheStore
      (none : Option (Int × CacheStore Nat))).2 rfl (by decide)⟩

/-- C3, counterexample: two live events for the same (component, entity)
key delivered during the initial sync are compacted into the merged store,
so only the later one's value reaches the output — the first buffered live
event is dropped rather than appearing exactly once. -/
theorem c3_no_drop_counterexample :
    dupKeyScenario.bufferedLive = [dupKeyEvent1, dupKeyEvent2] ∧
    (syncRun dupKeyScenario).output =
      [{ component := "0xc", entity := "0xe", value := 2, txHash := "cache",
         lastEventInTx := false, blockNumber := 100 }] ∧
    ((syncRun dupKeyScenario).output.map (fun u => u.value)) = [2] ∧
    dupKeyEvent1.value = 1 ∧ (1 : Nat) ≠ 2 := by
  exact ⟨rfl, by decide, by decide, rfl, by decide⟩

/-- C3, amended: when the (component, entity) keys of the seed store's
compacted entries, the gap store's sequence and the buffered live events are
pairwise distinct, the output stream is exactly the seed entries, then the
gap events, then the buffered live events (each appearing exactly once, all
rewritten to the merged store's block number), then the post-transition live
events unmodified; without that distinctness a later event overwrites an
earlier one with the same key in the compacted merged store. In the
interleaved scenario this yields exactly 5 outputs in the order seed, gap,
buffered live 1, buffered live 2, live 3. -/
theorem c3_output_ordering {V : Type} (inp : SyncInputs V)
    (h : (initialKeys inp).Nodup) :
    (syncRun inp).output =
      ((seedOf inp).2.1.state.map (entryUpdate (syncRun inp).mergedStore.blockNumber)
        ++ (gapOf inp).1.events.map (rewriteInitial (syncRun inp).mergedStore.blockNumber)
        ++ inp.bufferedLive.map (rewriteInitial (syncRun inp).mergedStore.blockNumber))
      ++ inp.liveAfter := by
  have h1 : (mergedOf inp).state
      = applyUpdates (seedOf inp).2.1.state ((gapOf inp).1.events ++ inp.bufferedLive) := by
    rw [applyUpdates_append]
    show (storeEvents (mergeFrom (seedOf inp).2.1 (gapOf inp).1) inp.bufferedLive).state
      = applyUpdates (applyUpdates (seedOf inp).2.1.state (gapOf inp).1.events)
          inp.bufferedLive
    rw [storeEvents_state]
    congr 1
    exact storeEvents_state (gapOf inp).1.events (seedOf inp).2.1
  have h2 : (mergedOf inp).state
      = (seedOf inp).2.1.state
        ++ ((gapOf inp).1.events ++ inp.bufferedLive).map (fun u => (u.key, u.value)) := by
    rw [h1]
    refine applyUpdates_fresh _ _ ?_
    unfold initialKeys at h
    simpa [List.append_assoc] using h
  show getCacheStoreEntries (mergedOf inp) ++ inp.liveAfter = _
  rw [getCacheStoreEntries, h2]
  simp only [List.map_append, List.map_map]
  have h3 : (entryUpdate (mergedOf inp).blockNumber ∘ fun u : ComponentUpdate V =>
      (u.key, u.value)) = rewriteInitial (mergedOf inp).blockNumber := by
    funext u
    exact entryUpdate_key_value (mergedOf inp).blockNumber u
  rw [h3]
  simp [syncRun, List.append_assoc]

/-- C3, witness: in the interleaved scenario the keys are pairwise distinct
and the output is exactly the 5 events seed, gap, buffered live 1, buffered
live 2, live 3 in that order. -/
theorem c3_output_ordering_witness :
    (initialKeys interleavedScenario).Nodup ∧
    (syncRun interleavedScenario).output =
      [{ component := "0x10", entity := "0x11", value := 0, txHash := "cache",
         lastEventInTx := false, blockNumber := 1001 },
       { component := "0x20", entity := "0x21", value := 0, txHash := "cache",
         lastEventInTx := false, blockNumber := 1001 },
       { component := "0x99", entity := "0x1", value := 0, txHash := "cache",
         lastEventInTx := false, blockNumber := 1001 },
       { component := "0x999", entity := "0x1", value := 0, txHash := "cache",
         lastEventInTx := false, blockNumber := 1001 },
       { component := "0x9999", entity := "0x1", value := 0, txHash := "0x2",
         lastEventInTx := true, blockNumber := 1003 }] :=
  ⟨by decide, (c3_output_ordering interleavedScenario (by decide)).trans (by decide)⟩

/-- C4: after the orchestrator reaches the LIVE state, every incoming live
ComponentUpdate is forwarded to the output exactly as delivered — component,
entity, value, txHash, lastEventInTx and blockNumber unchanged — after all
initial-phase events; in the pass-through scenario (empty cache, no
snapshot, tick 101) the output is exactly the live event, with
`lastEventInTx = true` preserved. -/
theorem c4_live_passthrough :
    (∀ (V : Type) (inp : SyncInputs V),
      (syncRun inp).liveOutput = inp.liveAfter ∧
      (syncRun inp).output = (syncRun inp).initialOutput ++ inp.liveAfter) ∧
    (syncRun passThroughScenario).output = [passThroughEvent] ∧
    passThroughEvent.lastEventInTx = true ∧ passThroughEvent.txHash = "0x2" ∧
    passThroughEvent.blockNumber = 111 :=
  ⟨fun _ _ => ⟨rfl, rfl⟩, by decide, rfl, rfl, rfl⟩

/-- C6: in a run that seeds from the persistent cache, the gap fetch is
invoked exactly once with `from` = the seed block number
(`max(cacheBlockNumber, floor)`) and `to` = the first block-number tick
(the `targetBlock` captured at BOOT), and later ticks never change the
invocation. -/
theorem c6_gap_fetch_args {V : Type} (inp : SyncInputs V)
    (hsrc : (seedOf inp).1 = SeedSource.cache)
    (hlt : (seedOf inp).2.2 < inp.targetBlock) :
    (syncRun inp).gapFetchCalls = [((seedOf inp).2.2, inp.targetBlock)] ∧
    (seedOf inp).2.2 = max inp.cacheBlockNumber inp.config.initialBlockNumber ∧
    (∀ ticks2 : List Int,
      (syncRun { inp with laterTicks := ticks2 }).gapFetchCalls
        = (syncRun inp).gapFetchCalls) := by
  refine ⟨?_, ?_, fun _ => rfl⟩
  · show (gapOf inp).2 = _
    unfold gapOf gapFill
    rw [if_neg (not_le.mpr hlt)]
  · unfold seedOf resolveInitialState at hsrc ⊢
    cases hsnap : effectiveSnapshot inp.config inp.snapshotService with
    | none =>
        simp only [hsnap] at hsrc ⊢
        by_cases hc : inp.cacheStore.state.isEmpty
        · simp [hc] at hsrc
        · simp [hc]
    | some p =>
        obtain ⟨bn, store⟩ := p
        simp only [hsnap] at hsrc ⊢
        by_cases hbn : max inp.cacheBlockNumber inp.config.initialBlockNumber
            + SNAPSHOT_PREFER_THRESHOLD < bn
        · simp [hbn] at hsrc
        · by_cases hc : inp.cacheStore.state.isEmpty
          · simp [hbn, hc] at hsrc
          · simp [hbn, hc]

/-- C6, witness: in the gap scenario (cache block 99, no snapshot, floor 0,
first tick 1001) the run seeds from the cache and the gap fetcher is called
exactly with (99, 1001). -/
theorem c6_gap_fetch_args_witness :
    (seedOf gapScenario).1 = SeedSource.cache ∧
    (seedOf gapScenario).2.2 < gapScenario.targetBlock ∧
    (syncRun gapScenario).gapFetchCalls = [((99 : Int), (1001 : Int))] :=
  ⟨by decide, by decide,
    ((c6_gap_fetch_args gapScenario (by decide) (by decide)).1).trans (by decide)⟩

/-- C8: `mergeFrom` is associative in outcome: for stores A, B, C where A's
compacted state replays its own sequence, the compacted state of
`A.mergeFrom(B).mergeFrom(C)` equals the compacted state obtained by
applying `storeEvent` to every update of A's, then B's, then C's sequence
in order. -/
theorem c8_mergeFrom_assoc {V : Type} (A B C : CacheStore V)
    (hA : A.state = applyUpdates [] A.events) :
    (mergeFrom (mergeFrom A B) C).state
      = (storeEvents createCacheStore (A.events ++ (B.events ++ C.events))).state := by
  have hL : (mergeFrom (mergeFrom A B) C).state
      = applyUpdates (applyUpdates A.state B.events) C.events := by
    simp only [mergeFrom, storeEvents_state]
  have hR : (storeEvents createCacheStore (A.events ++ (B.events ++ C.events))).state
      = applyUpdates (applyUpdates (applyUpdates [] A.events) B.events) C.events := by
    simp only [storeEvents_state, applyUpdates_append]
    rfl
  rw [hL, hR, hA]

/-- C8, witness: the associativity equation holds at the concrete cache,
snapshot and gap stores of the test fixture. -/
theorem c8_mergeFrom_assoc_witness :
    testCacheStore.state = applyUpdates [] testCacheStore.events ∧
    (mergeFrom (mergeFrom testCacheStore testSnapshotStore)
        (storeEvent createCacheStore gapEvent)).state
      = (storeEvents createCacheStore (testCacheStore.events
          ++ (testSnapshotStore.events ++ (storeEvent createCacheStore gapEvent).events))).state :=
  ⟨by decide,
    c8_mergeFrom_assoc testCacheStore testSnapshotStore
      (storeEvent createCacheStore gapEvent) (by decide)⟩

/-- C9: in the `setupMappings` subscriber, the network entity of every
delivered update is registered in the world before `setComponent` is
applied — the state handed to `setComponent` contains it — and after
processing the update the entity exists in the world. -/
theorem c9_entity_registered {V : Type} (toNet : String → String) (w : WorldState V)
    (u : ComponentUpdate V) :
    ((if w.entities.contains (toNet u.entity) then w
      else registerEntity w (toNet u.entity)).entities.contains (toNet u.entity) = true) ∧
    ((handleEcsEvent toNet w u).1.entities.contains (toNet u.entity) = true) := by
  have h1 : (if w.entities.contains (toNet u.entity) then w
      else registerEntity w (toNet u.entity)).entities.contains (toNet u.entity) = true := by
    by_cases hc : toNet u.entity ∈ w.entities
    · simp [hc]
    · simp [hc, registerEntity]
  exact ⟨h1, h1⟩

/-- C10: the `txReduced$` stream emits an update's txHash iff the update has
`lastEventInTx = true` (and emits nothing otherwise); consequently every
synthesized initial-phase event of a run — which carries
`lastEventInTx = false` — produces no transaction-reduced notification. -/
theorem c10_txReduced_iff {V W : Type} (toNet : String → String) (w : WorldState V)
    (u : ComponentUpdate V) (inp : SyncInputs W) :
    ((handleEcsEvent toNet w u).2 = some u.txHash ↔ u.lastEventInTx = true) ∧
    (u.lastEventInTx = false → (handleEcsEvent toNet w u).2 = none) ∧
    (∀ e ∈ (syncRun inp).initialOutput, ∀ (g : String → String) (w2 : WorldState W),
      (handleEcsEvent g w2 e).2 = none) := by
  refine ⟨?_, ?_, ?_⟩
  · cases hl : u.lastEventInTx
    · simp [handleEcsEvent, hl]
    · simp [handleEcsEvent, hl]
  · intro hl
    simp [handleEcsEvent, hl]
  · intro e he g w2
    have hfalse : e.lastEventInTx = false := (mem_initialOutput he).2.1
    simp [handleEcsEvent, hfalse]

/-- C10, witness: a live update with `lastEventInTx = true` makes the
subscriber emit its txHash, and the synthesized seed event of the snapshot
scenario produces no emission. -/
theorem c10_txReduced_iff_witness :
    (handleEcsEvent id { entities := [], componentValues := [] } passThroughEvent).2
        = some "0x2" ∧
    ({ component := "0x42", entity := "0x11", value := 0, txHash := "cache",
       lastEventInTx := false, blockNumber := 9999 } : ComponentUpdate Nat)
        ∈ (syncRun snapshotScenario).initialOutput ∧
    (handleEcsEvent id { entities := [], componentValues := [] }
      ({ component := "0x42", entity := "0x11", value := 0, txHash := "cache",
         lastEventInTx := false, blockNumber := 9999 } : ComponentUpdate Nat)).2 = none :=
  ⟨(c10_txReduced_iff id { entities := [], componentValues := [] } passThroughEvent
      snapshotScenario).1.mpr rfl,
   by decide,
   (c10_txReduced_iff id { entities := [], componentValues := [] } passThroughEvent
      snapshotScenario).2.2 _ (by decide) id { entities := [], componentValues := [] }⟩

end Mud
